import Mathlib

/-!
Shallow embedding of the optimisation-and-settlement pipeline of the
energy-trading-simulator repository, covering the trade emission and price
reconstruction in `tradingplatformpoc/simulation_runner/chalmers_interface.py`,
the per-agent MILP of `tradingplatformpoc/simulation_runner/chalmers/AgentEMS.py`,
and the district-heating tariff model of `tradingplatformpoc/price/heating_price.py`.
Machine floats are modelled as rationals; NaN-valued prices are modelled as
`Option.none`.
-/

namespace TradingPlatform

/-- Source constant `VERY_SMALL_NUMBER = 0.000001` from `chalmers_interface.py`:
primal net quantities with absolute value at most this threshold do not produce
a Trade row. -/
def VERY_SMALL_NUMBER : ℚ := 1 / 1000000

/-- The BUY/SELL tag of a trade (`Action` in the market domain). -/
inductive Action where
  | BUY
  | SELL
  deriving DecidableEq, Repr

/-- Whether a trade cleared inside the LEC or directly with the utility
(`Market` in the market domain). -/
inductive Market where
  | LOCAL
  | EXTERNAL
  deriving DecidableEq, Repr

/-- The four traded resources (`Resource` in the market domain). -/
inductive Resource where
  | ELECTRICITY
  | HIGH_TEMP_HEAT
  | LOW_TEMP_HEAT
  | COOLING
  deriving DecidableEq, Repr

/-- A trade row as emitted by the primal extractor.  Prices are `Option ℚ`,
with `none` standing for the float NaN the Python code uses for undefined
prices. -/
structure Trade where
  action : Action
  resource : Resource
  quantity_pre_loss : ℚ
  quantity_post_loss : ℚ
  price : Option ℚ
  by_external : Bool
  market : Market
  loss : ℚ
  grid_fee_paid : ℚ
  deriving DecidableEq, Repr

/-- Modelled from the spec: the `Trade` constructor lives in
`tradingplatformpoc/market/trade.py`, which is not among the provided source
files (only the obsolete auction-era `tradingplatformpoc/trade.py` is).  Per the
spec (section 3) a Trade stores `quantity_pre_loss` and `quantity_post_loss`
with the invariant `quantity_pre_loss = quantity_post_loss / (1 - loss)`, and
the call sites in `chalmers_interface.py` pass the pre-loss amount as `quantity`
for BUY trades and the post-loss amount for SELL trades, so the constructor
derives the missing one from `quantity` and `loss`. -/
def mkTrade (action : Action) (resource : Resource) (quantity : ℚ) (price : Option ℚ)
    (by_external : Bool) (market : Market) (loss : ℚ) (grid_fee_paid : ℚ) : Trade :=
  match action with
  | .BUY =>
      { action := .BUY, resource := resource,
        quantity_pre_loss := quantity, quantity_post_loss := quantity * (1 - loss),
        price := price, by_external := by_external, market := market,
        loss := loss, grid_fee_paid := grid_fee_paid }
  | .SELL =>
      { action := .SELL, resource := resource,
        quantity_pre_loss := quantity / (1 - loss), quantity_post_loss := quantity,
        price := price, by_external := by_external, market := market,
        loss := loss, grid_fee_paid := grid_fee_paid }

/-- Embeds `calculate_estimated_electricity_retail_price` from
`chalmers_interface.py`.  The pyomo parameter reads are replaced by explicit
rational arguments; the returned triple is
(estimated marginal price, tax per kWh, grid fee per kWh). -/
def calculate_estimated_electricity_retail_price (nordpool_hour elec_trans_fee elec_tax_fee
    elec_peak_load_fee avg_elec_peak_load total_bought : ℚ) : ℚ × ℚ × ℚ :=
  let price_per_kwh := nordpool_hour + elec_trans_fee + elec_tax_fee
  let total_effect_fee_for_horizon := elec_peak_load_fee * avg_elec_peak_load
  let effect_fee_per_kwh := total_effect_fee_for_horizon / total_bought
  let grid_fee_per_kwh := effect_fee_per_kwh + elec_trans_fee
  (price_per_kwh + effect_fee_per_kwh, elec_tax_fee, grid_fee_per_kwh)

/-- Embeds `calculate_estimated_electricity_wholesale_price` from
`chalmers_interface.py`: nordpool price of the hour plus the incentive fee
(the caller passes `elec_pricing.wholesale_offset` as `incentive_fee`). -/
def calculate_estimated_electricity_wholesale_price (nordpool_hour incentive_fee : ℚ) : ℚ :=
  nordpool_hour + incentive_fee

/-- Embeds `calculate_estimated_heating_retail_price` from
`chalmers_interface.py`. -/
def calculate_estimated_heating_retail_price (Hprice_energy heat_peak_load_fee
    monthly_heat_peak_energy total_bought : ℚ) : ℚ :=
  let total_effect_fee_for_horizon := heat_peak_load_fee / 24 * monthly_heat_peak_energy
  let effect_fee_per_kwh := total_effect_fee_for_horizon / total_bought
  Hprice_energy + effect_fee_per_kwh

/-- Embeds `calculate_estimated_heating_wholesale_price` from
`chalmers_interface.py`, which returns `np.nan` unconditionally ("Selling of
heat is not defined!"); NaN is modelled as `none`. -/
def calculate_estimated_heating_wholesale_price : Option ℚ :=
  none

/-- Embeds the per-(agent, hour, resource) body of `add_agent_trade` from
`chalmers_interface.py`.  `net` is the primal value of bought minus sold,
`has_price_data` is whether `resource_price_data` was passed (it is `none` only
for cooling).  Returns the Trade row appended to the trade list, or `none` when
the quantity is within `VERY_SMALL_NUMBER` of zero.  All pricing parameters are
passed explicitly in place of the pyomo model attributes. -/
def add_agent_trade (net loss : ℚ) (resource : Resource) (market : Market)
    (has_price_data : Bool)
    (nordpool_hour elec_trans_fee elec_tax_fee elec_peak_load_fee avg_elec_peak_load : ℚ)
    (incentive_fee Hprice_energy heat_peak_load_fee monthly_heat_peak_energy total_bought : ℚ) :
    Option Trade :=
  if VERY_SMALL_NUMBER < net ∨ net < -VERY_SMALL_NUMBER then
    let quantity_pre_loss := net / (1 - loss)
    let trade_quantity := |if 0 < net then quantity_pre_loss else net|
    let prices_and_fee :=
      if has_price_data = false then
        ((none : Option ℚ), (none : Option ℚ), (0 : ℚ))
      else if resource = Resource.ELECTRICITY then
        let rp := calculate_estimated_electricity_retail_price nordpool_hour elec_trans_fee
          elec_tax_fee elec_peak_load_fee avg_elec_peak_load total_bought
        (some rp.1,
         some (calculate_estimated_electricity_wholesale_price nordpool_hour incentive_fee),
         rp.2.2)
      else
        (some (calculate_estimated_heating_retail_price Hprice_energy heat_peak_load_fee
           monthly_heat_peak_energy total_bought),
         calculate_estimated_heating_wholesale_price,
         (0 : ℚ))
    some (mkTrade (if 0 < net then Action.BUY else Action.SELL) resource trade_quantity
      (if 0 < net then prices_and_fee.1 else prices_and_fee.2.1)
      false market loss prices_and_fee.2.2)
  else
    none

/-- Embeds `get_sum_of_param` applied to an hourly indexed parameter over the
horizon `T = range H` (used for `total_bought = sum(Pbuy_market)`). -/
def get_sum_of_param (H : ℕ) (p : ℕ → ℚ) : ℚ :=
  ((List.range H).map p).sum

/-- The electricity agent trades of one horizon in the no-LEC path
(`get_agent_transfers_no_lec` via `get_power_transfers`): for each hour the net
`Pbuy_market - Psell_market` is turned into at most one Trade with loss 0,
market EXTERNAL, priced against `total_bought = sum(Pbuy_market)`. -/
def elec_agent_trades_no_lec (H : ℕ) (Pbuy_market Psell_market nordpool_price : ℕ → ℚ)
    (elec_trans_fee elec_tax_fee elec_peak_load_fee avg_elec_peak_load incentive_fee : ℚ) :
    List Trade :=
  let total_bought := get_sum_of_param H Pbuy_market
  (List.range H).filterMap (fun t =>
    add_agent_trade (Pbuy_market t - Psell_market t) 0 Resource.ELECTRICITY Market.EXTERNAL true
      (nordpool_price t) elec_trans_fee elec_tax_fee elec_peak_load_fee avg_elec_peak_load
      incentive_fee 0 0 0 total_bought)

/-- Sum over a trade list of the recorded per-kWh grid fee on BUY rows. -/
def sum_grid_fee_paid_on_buys (trades : List Trade) : ℚ :=
  ((trades.filter (fun tr => decide (tr.action = Action.BUY))).map Trade.grid_fee_paid).sum

/-- Sum over the BUY rows of a trade list of the effect-fee part of the
recorded per-kWh grid fee (grid fee minus the transmission fee) weighted by the
bought energy. -/
def sum_effect_fee_recovered_on_buys (trades : List Trade) (elec_trans_fee : ℚ) : ℚ :=
  ((trades.filter (fun tr => decide (tr.action = Action.BUY))).map
    (fun tr => (tr.grid_fee_paid - elec_trans_fee) * tr.quantity_post_loss)).sum

/-- A timestamp of the hourly series, reduced to the calendar fields the
pricing code reads (`index.year`, `index.month`, `index.day`). -/
structure PyDate where
  year : ℤ
  month : ℕ
  day : ℕ
  deriving DecidableEq, Repr

/-- An external-sell register: the hourly series of kWh sold by the external
grid operator, as accumulated by `add_external_sell`. -/
abbrev SellSeries := List (PyDate × ℚ)

/-- pandas `Series.mean()`: NaN (here `none`) on an empty series, otherwise the
arithmetic mean. -/
def series_mean (l : List ℚ) : Option ℚ :=
  if l.isEmpty then none else some (l.sum / l.length)

/-- Python `calendar.isleap`. -/
def python_isleap (year : ℤ) : Bool :=
  year % 4 = 0 ∧ (year % 100 ≠ 0 ∨ year % 400 = 0)

/-- Modelled from the spec: `get_days_in_month` is defined in
`tradingplatformpoc/price/iprice.py`, which is not among the provided source
files; the spec's tariff formulas use the standard Gregorian number of days of
the month (`days_in_month / days_in_year`). -/
def get_days_in_month (month_of_year : ℕ) (year : ℤ) : ℕ :=
  if month_of_year = 2 then (if python_isleap year then 29 else 28)
  else if month_of_year = 4 ∨ month_of_year = 6 ∨ month_of_year = 9 ∨ month_of_year = 11 then 30
  else 31

/-- The `HeatingPrice` model state from `heating_price.py`: its two constructor
arguments (the grid-fee brackets and marginal prices are class constants,
embedded below as plain definitions). -/
structure HeatingPrice where
  heating_wholesale_price_fraction : ℚ
  effect_fee : ℚ
  deriving DecidableEq, Repr

/-- Grid-fee schedule constants of `HeatingPrice` (SEK). -/
def GRID_FEE_MARGINAL_SUB_50 : ℚ := 1116
/-- Grid-fee schedule constant of `HeatingPrice` (SEK). -/
def GRID_FEE_FIXED_SUB_50 : ℚ := 1152
/-- Grid-fee schedule constant of `HeatingPrice` (SEK). -/
def GRID_FEE_MARGINAL_50_100 : ℚ := 1068
/-- Grid-fee schedule constant of `HeatingPrice` (SEK). -/
def GRID_FEE_FIXED_50_100 : ℚ := 3060
/-- Grid-fee schedule constant of `HeatingPrice` (SEK). -/
def GRID_FEE_MARGINAL_100_200 : ℚ := 1020
/-- Grid-fee schedule constant of `HeatingPrice` (SEK). -/
def GRID_FEE_FIXED_100_200 : ℚ := 8148
/-- Grid-fee schedule constant of `HeatingPrice` (SEK). -/
def GRID_FEE_MARGINAL_200_400 : ℚ := 972
/-- Grid-fee schedule constant of `HeatingPrice` (SEK). -/
def GRID_FEE_FIXED_200_400 : ℚ := 18348
/-- Grid-fee schedule constant of `HeatingPrice` (SEK). -/
def GRID_FEE_MARGINAL_400_PLUS : ℚ := 936
/-- Grid-fee schedule constant of `HeatingPrice` (SEK). -/
def GRID_FEE_FIXED_400_PLUS : ℚ := 33696
/-- Base marginal heating price outside the summer window (SEK/kWh). -/
def MARGINAL_PRICE_WINTER : ℚ := 1/2
/-- Base marginal heating price in the summer window (SEK/kWh). -/
def MARGINAL_PRICE_SUMMER : ℚ := 3/10

/-- Embeds `HeatingPrice.get_base_marginal_price`: the code comment reads
"'Summer price' during May-September, 'Winter price' other months" and the
branch condition is `5 <= month_of_year <= 9`. -/
def get_base_marginal_price (month_of_year : ℕ) : ℚ :=
  if 5 ≤ month_of_year ∧ month_of_year ≤ 9 then MARGINAL_PRICE_SUMMER
  else MARGINAL_PRICE_WINTER

/-- Embeds `HeatingPrice.marginal_grid_fee_assuming_top_bracket`. -/
def marginal_grid_fee_assuming_top_bracket (year : ℤ) : ℚ :=
  let hours_in_jan_feb : ℚ := 1416 + (if python_isleap year then 24 else 0)
  GRID_FEE_MARGINAL_400_PLUS / hours_in_jan_feb

/-- Embeds `HeatingPrice.exact_effect_fee`. -/
def exact_effect_fee (hp : HeatingPrice) (monthly_peak_day_avg_consumption_kw : ℚ) : ℚ :=
  hp.effect_fee * monthly_peak_day_avg_consumption_kw

/-- Embeds `HeatingPrice.get_yearly_grid_fee`: the five-tier piecewise-linear
schedule on the Jan-Feb average hourly consumption. -/
def get_yearly_grid_fee (jan_feb_hourly_avg_consumption_kw : ℚ) : ℚ :=
  if jan_feb_hourly_avg_consumption_kw < 50 then
    GRID_FEE_FIXED_SUB_50 + GRID_FEE_MARGINAL_SUB_50 * jan_feb_hourly_avg_consumption_kw
  else if jan_feb_hourly_avg_consumption_kw < 100 then
    GRID_FEE_FIXED_50_100 + GRID_FEE_MARGINAL_50_100 * jan_feb_hourly_avg_consumption_kw
  else if jan_feb_hourly_avg_consumption_kw < 200 then
    GRID_FEE_FIXED_100_200 + GRID_FEE_MARGINAL_100_200 * jan_feb_hourly_avg_consumption_kw
  else if jan_feb_hourly_avg_consumption_kw < 400 then
    GRID_FEE_FIXED_200_400 + GRID_FEE_MARGINAL_200_400 * jan_feb_hourly_avg_consumption_kw
  else
    GRID_FEE_FIXED_400_PLUS + GRID_FEE_MARGINAL_400_PLUS * jan_feb_hourly_avg_consumption_kw

/-- Embeds `HeatingPrice.get_grid_fee_for_month`: the yearly grid fee spread
over the year proportionally to the number of days of the month. -/
def get_grid_fee_for_month (jan_feb_hourly_avg_consumption_kw : ℚ) (year : ℤ)
    (month_of_year : ℕ) : ℚ :=
  let days_in_month : ℚ := get_days_in_month month_of_year year
  let days_in_year : ℚ := if python_isleap year then 366 else 365
  let fraction_of_year := days_in_month / days_in_year
  get_yearly_grid_fee jan_feb_hourly_avg_consumption_kw * fraction_of_year

/-- Embeds `HeatingPrice.exact_district_heating_price_for_month`: base marginal
price times consumption, plus effect fee, plus grid fee. -/
def exact_district_heating_price_for_month (hp : HeatingPrice) (month : ℕ) (year : ℤ)
    (consumption_this_month_kwh jan_feb_avg_consumption_kw
     prev_month_peak_day_avg_consumption_kw : ℚ) : ℚ :=
  exact_effect_fee hp prev_month_peak_day_avg_consumption_kw
    + get_grid_fee_for_month jan_feb_avg_consumption_kw year month
    + get_base_marginal_price month * consumption_this_month_kwh

/-- Embeds the module-level `calculate_consumption_this_month`: sum of the
external sells of the given calendar month. -/
def calculate_consumption_this_month (dt_series : SellSeries) (year : ℤ) (month : ℕ) : ℚ :=
  ((dt_series.filter (fun e => decide (e.1.year = year ∧ e.1.month = month))).map Prod.snd).sum

/-- The year whose January-February data `calculate_jan_feb_avg_heating_sold`
looks at: the previous year while the query period is still in Jan-Feb. -/
def jan_feb_year_of_interest (period : PyDate) : ℤ :=
  if period.month ≤ 2 then period.year - 1 else period.year

/-- The Jan-Feb subset of the series restricted to one year. -/
def jan_feb_subset_year (dt_series : SellSeries) (y : ℤ) : SellSeries :=
  dt_series.filter (fun e => decide (e.1.year = y ∧ e.1.month ≤ 2))

/-- The Jan-Feb subset of the series over all years (the fallback subset). -/
def jan_feb_subset_all (dt_series : SellSeries) : SellSeries :=
  dt_series.filter (fun e => decide (e.1.month ≤ 2))

/-- Embeds the module-level `calculate_jan_feb_avg_heating_sold`: the mean of the
previous Jan-Feb sells; when that subset is empty the code logs that it will
"'cheat' and use future data" and falls back to all Jan-Feb rows of the series.
The mean of an empty series is NaN, modelled as `none`. -/
def calculate_jan_feb_avg_heating_sold (dt_series : SellSeries) (period : PyDate) : Option ℚ :=
  let subset := jan_feb_subset_year dt_series (jan_feb_year_of_interest period)
  let subset2 := if subset.isEmpty then jan_feb_subset_all dt_series else subset
  series_mean (subset2.map Prod.snd)

/-- Whether the fallback branch of `calculate_jan_feb_avg_heating_sold` (the
logged "use future data" path) is taken. -/
def jan_feb_used_future_data (dt_series : SellSeries) (period : PyDate) : Bool :=
  (jan_feb_subset_year dt_series (jan_feb_year_of_interest period)).isEmpty

/-- The rows of the series falling in one calendar month. -/
def month_entries (dt_series : SellSeries) (year : ℤ) (month : ℕ) : SellSeries :=
  dt_series.filter (fun e => decide (e.1.year = year ∧ e.1.month = month))

/-- Total energy sold on one calendar day of one month (the value the pandas
`groupby(day).sum()` produces for a day present in the data, and 0 for an
absent day). -/
def daily_sum (dt_series : SellSeries) (year : ℤ) (month : ℕ) (day : ℕ) : ℚ :=
  ((dt_series.filter
      (fun e => decide (e.1.year = year ∧ e.1.month = month ∧ e.1.day = day))).map Prod.snd).sum

/-- Embeds the module-level `calculate_peak_day_avg_cons_kw`: group the month's
sells by calendar day, sum each day, take the maximum daily total and divide by
24.  pandas `max()` of an empty frame is NaN, modelled as `none`. -/
def calculate_peak_day_avg_cons_kw (dt_series : SellSeries) (year : ℤ) (month : ℕ) :
    Option ℚ :=
  let entries := month_entries dt_series year month
  let days := (entries.map (fun e => e.1.day)).dedup
  let sold_by_day := days.map
    (fun d => ((entries.filter (fun e => decide (e.1.day = d))).map Prod.snd).sum)
  sold_by_day.max?.map (fun m => m / 24)

/-- Embeds `HeatingPrice.get_exact_retail_price`: NaN (here `none`) when the
month has no recorded consumption, otherwise the total monthly cost divided by
the monthly consumption.  A NaN Jan-Feb average (no Jan-Feb data anywhere, even
after the fallback) propagates through the float arithmetic of the original,
modelled by the `Option` match. -/
def get_exact_retail_price (hp : HeatingPrice) (dt_series : SellSeries) (period : PyDate) :
    Option ℚ :=
  let consumption_this_month_kwh :=
    calculate_consumption_this_month dt_series period.year period.month
  if consumption_this_month_kwh = 0 then none
  else
    match calculate_jan_feb_avg_heating_sold dt_series period,
        calculate_peak_day_avg_cons_kw dt_series period.year period.month with
    | some jan_feb_avg, some peak_day_avg =>
        some (exact_district_heating_price_for_month hp period.month period.year
          consumption_this_month_kwh jan_feb_avg peak_day_avg / consumption_this_month_kwh)
    | _, _ => none

/-- Energy content per degree of an agent's accumulator tank, from the top of
`AgentEMS.solve_model`: `thermalstorage_volume * 4182 * 998 / 3600000`. -/
def kwh_per_deg_of_volume (thermalstorage_volume : ℚ) : ℚ :=
  thermalstorage_volume * 4182 * 998 / 3600000

/-- Embeds the hot-water feasibility pre-check at the top of
`AgentEMS.solve_model` (before the pyomo model is built and before any solver
call): the maximum tank discharge is `kwh_per_deg * thermalstorage_max_temp`
and any hour whose hot-water demand strictly exceeds it makes the function
raise.  The raise is a `RuntimeError` whose message carries exactly the agent
index, modelled as `Except.error agent`. -/
def hot_water_precheck (agent : ℕ) (hot_water_heatdem : List ℚ)
    (thermalstorage_volume thermalstorage_max_temp : ℚ) : Except ℕ Unit :=
  let max_tank_discharge := kwh_per_deg_of_volume thermalstorage_volume * thermalstorage_max_temp
  if hot_water_heatdem.any (fun d => decide (max_tank_discharge < d)) then
    Except.error agent
  else
    Except.ok ()

/-- Numeric value of a pyomo boolean parameter when it occurs in arithmetic
(Python treats `True` as 1 and `False` as 0). -/
def boolToRat (b : Bool) : ℚ := if b then 1 else 0

/-- The parameters of the per-agent horizon MILP built by
`AgentEMS.solve_model` (the pyomo `Param` objects, plus the horizon length,
the summer flag and the calendar month that select the conditional constraint
families).  Hourly parameters are functions of the hour index. -/
structure AgentEMSParams where
  H : ℕ
  summer_mode : Bool
  month : ℕ
  penalty : ℚ
  price_buy : ℕ → ℚ
  price_sell : ℕ → ℚ
  Hprice_energy : ℚ
  Pmax_grid : ℚ
  Hmax_grid : ℚ
  Pmax_market : ℚ
  Hmax_market : ℚ
  Pdem : ℕ → ℚ
  Hhw : ℕ → ℚ
  Hsh : ℕ → ℚ
  Cld : ℕ → ℚ
  Ppv : ℕ → ℚ
  Hsh_excess : ℕ → ℚ
  effe : ℚ
  SOCBES0 : ℚ
  Emax_BES : ℚ
  Pmax_BES_Cha : ℚ
  Pmax_BES_Dis : ℚ
  BITES_Eshallow0 : ℚ
  BITES_Edeep0 : ℚ
  Energy_shallow_cap : ℚ
  Energy_deep_cap : ℚ
  Heat_rate_shallow : ℚ
  Kval : ℚ
  Kloss_shallow : ℚ
  Kloss_deep : ℚ
  COPhp : ℚ
  Phpmax : ℚ
  Hhpmax : ℚ
  HP_Cproduct_active : Bool
  COPhpB : ℚ
  PhpBmax : ℚ
  HhpBmax : ℚ
  borehole : Bool
  efft : ℚ
  SOCTES0 : ℚ
  Tmax_TES : ℚ
  kwh_per_deg : ℚ
  Heat_trans_loss : ℚ
  cold_trans_loss : ℚ

/-- A primal assignment for the decision variables of the per-agent horizon
MILP (`pyo.Var` objects of `AgentEMS.solve_model`), as functions of the hour
index.  The booster variables `HhpB`/`PhpB` only exist on the pyomo model in
summer mode; here they are total functions whose constraints are only imposed
in summer mode. -/
structure AgentEMSVars where
  Pbuy_grid : ℕ → ℚ
  Psell_grid : ℕ → ℚ
  U_power_buy_sell_grid : ℕ → ℚ
  Hbuy_grid : ℕ → ℚ
  Hsell_grid : ℕ → ℚ
  Cbuy_grid : ℕ → ℚ
  Pcha : ℕ → ℚ
  Pdis : ℕ → ℚ
  SOCBES : ℕ → ℚ
  Hhp : ℕ → ℚ
  Chp : ℕ → ℚ
  Php : ℕ → ℚ
  HTEScha : ℕ → ℚ
  HTESdis : ℕ → ℚ
  SOCTES : ℕ → ℚ
  Energy_shallow : ℕ → ℚ
  Hcha_shallow : ℕ → ℚ
  Flow : ℕ → ℚ
  Loss_shallow : ℕ → ℚ
  Energy_deep : ℕ → ℚ
  Loss_deep : ℕ → ℚ
  HhpB : ℕ → ℚ
  PhpB : ℕ → ℚ
  heat_dump : ℕ → ℚ

/-- A feasible primal solution of the per-agent horizon MILP: the variable
domains (`NonNegativeReals`, the `(0,1)` bounds of the SOC variables, the
binary domain of `U_power_buy_sell_grid`) together with every constraint
registered on the model at the bottom of `AgentEMS.solve_model`, each field
mirroring one source constraint rule, including its `if` branches on zero
capacities and its summer/winter and month conditionality. -/
structure Feasible (p : AgentEMSParams) (v : AgentEMSVars) : Prop where
  dom_elec_nonneg : ∀ t, t < p.H →
    0 ≤ v.Pbuy_grid t ∧ 0 ≤ v.Psell_grid t ∧ 0 ≤ v.Pcha t ∧ 0 ≤ v.Pdis t ∧
    0 ≤ v.Php t ∧ 0 ≤ v.Hhp t ∧ 0 ≤ v.Chp t
  dom_heat_nonneg : ∀ t, t < p.H →
    0 ≤ v.Hbuy_grid t ∧ 0 ≤ v.Hsell_grid t ∧ 0 ≤ v.Cbuy_grid t ∧
    0 ≤ v.HTEScha t ∧ 0 ≤ v.HTESdis t ∧ 0 ≤ v.heat_dump t
  dom_bites_nonneg : ∀ t, t < p.H →
    0 ≤ v.Energy_shallow t ∧ 0 ≤ v.Loss_shallow t ∧
    0 ≤ v.Energy_deep t ∧ 0 ≤ v.Loss_deep t
  dom_booster_nonneg : p.summer_mode = true → ∀ t, t < p.H →
    0 ≤ v.HhpB t ∧ 0 ≤ v.PhpB t
  dom_SOCBES : ∀ t, t < p.H → 0 ≤ v.SOCBES t ∧ v.SOCBES t ≤ 1
  dom_SOCTES : ∀ t, t < p.H → 0 ≤ v.SOCTES t ∧ v.SOCTES t ≤ 1
  dom_U_binary : ∀ t, t < p.H →
    v.U_power_buy_sell_grid t = 0 ∨ v.U_power_buy_sell_grid t = 1
  con_max_Pbuy_grid : ∀ t, t < p.H →
    v.Pbuy_grid t ≤ p.Pmax_grid * v.U_power_buy_sell_grid t
  con_max_Hbuy_grid : ∀ t, t < p.H → v.Hbuy_grid t ≤ p.Hmax_grid
  con_max_Psell_grid : ∀ t, t < p.H →
    v.Psell_grid t ≤ p.Pmax_grid * (1 - v.U_power_buy_sell_grid t)
  con_max_Hsell_grid_summer : p.summer_mode = true → ∀ t, t < p.H →
    v.Hsell_grid t ≤ p.Hmax_grid
  con_max_Hsell_grid_winter : p.summer_mode = false → ∀ t, t < p.H →
    v.Hsell_grid t ≤ 0
  con_agent_Pbalance_summer : p.summer_mode = true → ∀ t, t < p.H →
    p.Ppv t + v.Pdis t + v.Pbuy_grid t =
      p.Pdem t + v.Php t + v.PhpB t + v.Pcha t + v.Psell_grid t
  con_agent_Pbalance_winter : p.summer_mode = false → ∀ t, t < p.H →
    p.Ppv t + v.Pdis t + v.Pbuy_grid t =
      p.Pdem t + v.Php t + v.Pcha t + v.Psell_grid t
  con_agent_Hbalance_summer : p.summer_mode = true → ∀ t, t < p.H →
    (if p.kwh_per_deg ≠ 0 then
      v.Hbuy_grid t + v.Hhp t + p.Hsh_excess t =
        v.Hsell_grid t + v.Hcha_shallow t + p.Hsh t
          + (6/10) * v.HTEScha t + v.heat_dump t
    else
      v.Hbuy_grid t + v.Hhp t + p.Hsh_excess t =
        v.Hsell_grid t + v.Hcha_shallow t + p.Hsh t
          + (6/10) * p.Hhw t + v.heat_dump t)
  con_agent_Hbalance_winter : p.summer_mode = false → ∀ t, t < p.H →
    (if p.kwh_per_deg ≠ 0 then
      v.Hbuy_grid t + v.Hhp t =
        v.Hsell_grid t + v.Hcha_shallow t + p.Hsh t + v.HTEScha t + v.heat_dump t
    else
      v.Hbuy_grid t + v.Hhp t =
        v.Hsell_grid t + v.Hcha_shallow t + p.Hsh t + p.Hhw t + v.heat_dump t)
  con_HTES_supplied_by_Bhp : p.summer_mode = true → ∀ t, t < p.H →
    (if p.kwh_per_deg ≠ 0 then v.HhpB t = (1 - 6/10) * v.HTEScha t
     else v.HhpB t = (1 - 6/10) * p.Hhw t)
  con_agent_Cbalance_summer : p.month = 6 ∨ p.month = 7 ∨ p.month = 8 → ∀ t, t < p.H →
    v.Cbuy_grid t + v.Chp t = 0 + p.Cld t
  con_agent_Cbalance_winter : ¬(p.month = 6 ∨ p.month = 7 ∨ p.month = 8) → ∀ t, t < p.H →
    v.Cbuy_grid t + v.Chp t = 0 + p.Cld t * (1 - boolToRat p.borehole)
  con_Hhw_supplied_by_HTES : p.kwh_per_deg ≠ 0 → ∀ t, t < p.H →
    v.HTESdis t = p.Hhw t
  con_BITES_Eshallow_balance : ∀ t, t < p.H →
    (if t = 0 then
      v.Energy_shallow 0 = p.BITES_Eshallow0 + v.Hcha_shallow 0 - v.Flow 0 - v.Loss_shallow 0
    else
      v.Energy_shallow t =
        v.Energy_shallow (t - 1) + v.Hcha_shallow t - v.Flow t - v.Loss_shallow t)
  con_BITES_shallow_dis : ∀ t, t < p.H → -v.Hcha_shallow t ≤ p.Heat_rate_shallow
  con_BITES_shallow_cha : ∀ t, t < p.H → v.Hcha_shallow t ≤ p.Heat_rate_shallow
  con_BITES_Edeep_balance : ∀ t, t < p.H →
    (if t = 0 then
      v.Energy_deep 0 = p.BITES_Edeep0 + v.Flow 0 - v.Loss_deep 0
    else
      v.Energy_deep t = v.Energy_deep (t - 1) + v.Flow t - v.Loss_deep t)
  con_BITES_Eflow_between_storages : ∀ t, t < p.H →
    (if p.Energy_shallow_cap = 0 ∨ p.Energy_deep_cap = 0 then v.Flow t = 0
     else v.Flow t = (v.Energy_shallow t / p.Energy_shallow_cap
       - v.Energy_deep t / p.Energy_deep_cap) * p.Kval)
  con_BITES_shallow_loss : ∀ t, t < p.H →
    (if t = 0 then v.Loss_shallow 0 = 0
     else v.Loss_shallow t = v.Energy_shallow (t - 1) * (1 - p.Kloss_shallow))
  con_BITES_deep_loss : ∀ t, t < p.H →
    (if t = 0 then v.Loss_deep 0 = 0
     else v.Loss_deep t = v.Energy_deep (t - 1) * (1 - p.Kloss_deep))
  con_BITES_max_Hdis_shallow : ∀ t, t < p.H → -v.Hcha_shallow t ≤ p.Hsh t
  con_BITES_max_Hcha_shallow : ∀ t, t < p.H →
    v.Hcha_shallow t ≤ p.Hhpmax + p.Hmax_grid - p.Hsh t
  con_BITES_max_Eshallow : ∀ t, t < p.H → v.Energy_shallow t ≤ p.Energy_shallow_cap
  con_BITES_max_Edeep : ∀ t, t < p.H → v.Energy_deep t ≤ p.Energy_deep_cap
  con_BES_max_dis : ∀ t, t < p.H → v.Pdis t ≤ p.Pmax_BES_Dis
  con_BES_max_cha : ∀ t, t < p.H → v.Pcha t ≤ p.Pmax_BES_Cha
  con_BES_Ebalance : ∀ t, t < p.H →
    (if p.Emax_BES = 0 then v.Pcha t + v.Pdis t = p.Emax_BES
     else if t = 0 then
       v.SOCBES 0 = p.SOCBES0 + v.Pcha 0 * p.effe / p.Emax_BES
         - v.Pdis 0 / (p.Emax_BES * p.effe)
     else
       v.SOCBES t = v.SOCBES (t - 1) + v.Pcha t * p.effe / p.Emax_BES
         - v.Pdis t / (p.Emax_BES * p.effe))
  con_BES_final_SOC : v.SOCBES (p.H - 1) = p.SOCBES0
  con_BES_remove_binaries : ∀ t, t < p.H →
    (if p.Pmax_BES_Dis = 0 ∨ p.Pmax_BES_Cha = 0 then v.Pcha t + v.Pdis t ≤ 0
     else v.Pdis t / p.Pmax_BES_Dis + v.Pcha t / p.Pmax_BES_Cha ≤ 1)
  con_HP_Hproduct : ∀ t, t < p.H → v.Hhp t = p.COPhp * v.Php t
  con_HP_Cproduct : ∀ t, t < p.H →
    (if p.HP_Cproduct_active then v.Chp t = (p.COPhp - 1) * v.Php t else v.Chp t = 0)
  con_max_HP_Hproduct : ∀ t, t < p.H → v.Hhp t ≤ p.Hhpmax
  con_max_HP_Pconsumption : ∀ t, t < p.H → v.Php t ≤ p.Phpmax
  con_max_booster_HP_Hproduct_summer : p.summer_mode = true → ∀ t, t < p.H →
    v.HhpB t ≤ p.HhpBmax
  con_max_HTES_dis : ∀ t, t < p.H → v.HTESdis t ≤ p.kwh_per_deg * p.Tmax_TES
  con_max_HTES_cha : ∀ t, t < p.H → v.HTEScha t ≤ p.kwh_per_deg * p.Tmax_TES
  con_HTES_Ebalance : ∀ t, t < p.H →
    (if p.kwh_per_deg = 0 then v.HTESdis t + v.HTEScha t = p.kwh_per_deg
     else if t = 0 then
       v.SOCTES 0 = p.SOCTES0
         + (v.HTEScha 0 * p.efft / (p.kwh_per_deg * p.Tmax_TES)
            - v.HTESdis 0 / (p.kwh_per_deg * p.Tmax_TES * p.efft))
     else
       v.SOCTES t = v.SOCTES (t - 1)
         + (v.HTEScha t * p.efft / (p.kwh_per_deg * p.Tmax_TES)
            - v.HTESdis t / (p.kwh_per_deg * p.Tmax_TES * p.efft)))
  con_HTES_final_SOC : v.SOCTES (p.H - 1) = p.SOCTES0

/-- A one-hour winter instance with no devices, no demand and no supply: every
capacity parameter is zero and the efficiency parameters keep their source
default values. -/
def trivialParams : AgentEMSParams where
  H := 1
  summer_mode := false
  month := 1
  penalty := 1000
  price_buy := fun _ => 0
  price_sell := fun _ => 0
  Hprice_energy := 0
  Pmax_grid := 0
  Hmax_grid := 0
  Pmax_market := 0
  Hmax_market := 0
  Pdem := fun _ => 0
  Hhw := fun _ => 0
  Hsh := fun _ => 0
  Cld := fun _ => 0
  Ppv := fun _ => 0
  Hsh_excess := fun _ => 0
  effe := 95/100
  SOCBES0 := 0
  Emax_BES := 0
  Pmax_BES_Cha := 0
  Pmax_BES_Dis := 0
  BITES_Eshallow0 := 0
  BITES_Edeep0 := 0
  Energy_shallow_cap := 0
  Energy_deep_cap := 0
  Heat_rate_shallow := 0
  Kval := 0
  Kloss_shallow := 9913/10000
  Kloss_deep := 9963/10000
  COPhp := 0
  Phpmax := 0
  Hhpmax := 0
  HP_Cproduct_active := false
  COPhpB := 0
  PhpBmax := 0
  HhpBmax := 0
  borehole := false
  efft := 98/100
  SOCTES0 := 0
  Tmax_TES := 0
  kwh_per_deg := 0
  Heat_trans_loss := 5/100
  cold_trans_loss := 5/100

/-- The all-zero primal assignment. -/
def trivialVars : AgentEMSVars where
  Pbuy_grid := fun _ => 0
  Psell_grid := fun _ => 0
  U_power_buy_sell_grid := fun _ => 0
  Hbuy_grid := fun _ => 0
  Hsell_grid := fun _ => 0
  Cbuy_grid := fun _ => 0
  Pcha := fun _ => 0
  Pdis := fun _ => 0
  SOCBES := fun _ => 0
  Hhp := fun _ => 0
  Chp := fun _ => 0
  Php := fun _ => 0
  HTEScha := fun _ => 0
  HTESdis := fun _ => 0
  SOCTES := fun _ => 0
  Energy_shallow := fun _ => 0
  Hcha_shallow := fun _ => 0
  Flow := fun _ => 0
  Loss_shallow := fun _ => 0
  Energy_deep := fun _ => 0
  Loss_deep := fun _ => 0
  HhpB := fun _ => 0
  PhpB := fun _ => 0
  heat_dump := fun _ => 0

/-- The external-sell series of scenario E5 of the spec: 50 kWh sold on
February 1 and 100 kWh sold in a later month (May 1) of the same year. -/
def series_e5 : SellSeries := [(⟨2019, 2, 1⟩, 50), (⟨2019, 5, 1⟩, 100)]

/-- The external-sell series of scenario E6 of the spec: sells of 100 and 140
on day 1 and 50, 50, 50 on day 2 of March. -/
def series_e6 : SellSeries :=
  [(⟨2019, 3, 1⟩, 100), (⟨2019, 3, 1⟩, 140),
   (⟨2019, 3, 2⟩, 50), (⟨2019, 3, 2⟩, 50), (⟨2019, 3, 2⟩, 50)]

/-- A series with both Jan-Feb history and March consumption, used to exercise
the non-degenerate branch of `get_exact_retail_price`. -/
def series_with_history : SellSeries := series_e5 ++ series_e6

/-- A heating price model with wholesale fraction 1/2 and the default effect
fee of 68 SEK/kW. -/
def hp_default : HeatingPrice := { heating_wholesale_price_fraction := 1/2, effect_fee := 68 }

end TradingPlatform

namespace TradingPlatform

lemma trivial_feasible : Feasible trivialParams trivialVars := by
  have hH : trivialParams.H = 1 := rfl
  constructor <;>
    first
    | (norm_num [trivialParams, trivialVars]; done)
    | (intro t ht
       rw [hH] at ht
       obtain rfl : t = 0 := by omega
       norm_num [trivialParams, trivialVars, boolToRat]
       done)
    | (intro hs
       first
       | (norm_num [trivialParams] at hs; done)
       | (intro t ht
          rw [hH] at ht
          obtain rfl : t = 0 := by omega
          norm_num [trivialParams, trivialVars, boolToRat]
          done))

/-- C5: for every feasible solution of the per-agent horizon MILP, in either
mode, the battery state of charge at the final hour `H-1` equals the initial
state of charge `SOCBES0`, and the tank state of charge at hour `H-1` equals
`SOCTES0`, within `1e-6` (the equalities are exact, so the tolerance holds). -/
theorem battery_and_tank_cyclicity (p : AgentEMSParams) (v : AgentEMSVars)
    (hf : Feasible p v) :
    |v.SOCBES (p.H - 1) - p.SOCBES0| ≤ VERY_SMALL_NUMBER ∧
    |v.SOCTES (p.H - 1) - p.SOCTES0| ≤ VERY_SMALL_NUMBER := by
  constructor
  · rw [hf.con_BES_final_SOC, sub_self, abs_zero]
    norm_num [VERY_SMALL_NUMBER]
  · rw [hf.con_HTES_final_SOC, sub_self, abs_zero]
    norm_num [VERY_SMALL_NUMBER]

theorem battery_and_tank_cyclicity_witness :
    Feasible trivialParams trivialVars ∧
    |trivialVars.SOCBES (trivialParams.H - 1) - trivialParams.SOCBES0| ≤ VERY_SMALL_NUMBER ∧
    |trivialVars.SOCTES (trivialParams.H - 1) - trivialParams.SOCTES0| ≤ VERY_SMALL_NUMBER :=
  ⟨trivial_feasible, battery_and_tank_cyclicity trivialParams trivialVars trivial_feasible⟩

/-- C10: for an agent with `Emax_BES = 0`, every feasible solution has zero
battery charge and discharge at every hour, and for an agent with
`kwh_per_deg = 0`, every feasible solution has zero tank charge and discharge
at every hour. -/
theorem zero_capacity_no_charge_discharge (p : AgentEMSParams) (v : AgentEMSVars)
    (hf : Feasible p v) :
    (p.Emax_BES = 0 → ∀ t, t < p.H → v.Pcha t = 0 ∧ v.Pdis t = 0) ∧
    (p.kwh_per_deg = 0 → ∀ t, t < p.H → v.HTEScha t = 0 ∧ v.HTESdis t = 0) := by
  constructor
  · intro h0 t ht
    have hbal := hf.con_BES_Ebalance t ht
    rw [if_pos h0, h0] at hbal
    have h1 := (hf.dom_elec_nonneg t ht).2.2.1
    have h2 := (hf.dom_elec_nonneg t ht).2.2.2.1
    constructor <;> linarith
  · intro h0 t ht
    have hbal := hf.con_HTES_Ebalance t ht
    rw [if_pos h0, h0] at hbal
    have h1 := (hf.dom_heat_nonneg t ht).2.2.2.1
    have h2 := (hf.dom_heat_nonneg t ht).2.2.2.2.1
    constructor <;> linarith

theorem zero_capacity_no_charge_discharge_witness :
    trivialParams.Emax_BES = 0 ∧ trivialParams.kwh_per_deg = 0 ∧
    trivialVars.Pcha 0 = 0 ∧ trivialVars.HTESdis 0 = 0 :=
  ⟨rfl, rfl,
   ((zero_capacity_no_charge_discharge trivialParams trivialVars trivial_feasible).1
      rfl 0 (by decide)).1,
   ((zero_capacity_no_charge_discharge trivialParams trivialVars trivial_feasible).2
      rfl 0 (by decide)).2⟩

/-- C6 counterexample: May (month 5) is not in `{6, 7, 8}` yet
`get_base_marginal_price` returns the summer price 0.3 rather than the winter
price 0.5 the claim requires for months outside `{6, 7, 8}`. -/
theorem base_marginal_price_counterexample :
    get_base_marginal_price 5 = 3/10 ∧ 5 ∉ [6, 7, 8] ∧ (3/10 : ℚ) ≠ 1/2 := by
  refine ⟨?_, by decide, by norm_num⟩
  norm_num [get_base_marginal_price, MARGINAL_PRICE_SUMMER]

/-- C6 amended: `get_base_marginal_price` returns the summer price 0.3 exactly
for the months May through September (`{5, 6, 7, 8, 9}`) and the winter price
0.5 for every other month. -/
theorem base_marginal_price_summer_window (m : ℕ) :
    (get_base_marginal_price m = MARGINAL_PRICE_SUMMER ↔ m ∈ [5, 6, 7, 8, 9]) ∧
    (get_base_marginal_price m = MARGINAL_PRICE_WINTER ↔ m ∉ [5, 6, 7, 8, 9]) := by
  have hmem : m ∈ [5, 6, 7, 8, 9] ↔ (5 ≤ m ∧ m ≤ 9) := by
    simp only [List.mem_cons, List.mem_singleton, List.not_mem_nil, or_false]
    omega
  have hne : MARGINAL_PRICE_SUMMER ≠ MARGINAL_PRICE_WINTER := by
    norm_num [MARGINAL_PRICE_SUMMER, MARGINAL_PRICE_WINTER]
  unfold get_base_marginal_price
  by_cases h : 5 ≤ m ∧ m ≤ 9
  · rw [if_pos h]
    simp [hmem, h, hne]
  · rw [if_neg h]
    simp [hmem, h, hne.symm]

/-- C7: with external heat sells of 50 kWh on February 1 and 100 kWh on May 1
of the same year, the Jan-Feb average queried on March 1 is 50 (same-year
Jan-Feb data); queried on February 1 there is no previous-year Jan-Feb data, so
the logged future-data fallback is taken and the result is again 50. -/
theorem jan_feb_avg_scenario :
    calculate_jan_feb_avg_heating_sold series_e5 ⟨2019, 3, 1⟩ = some 50 ∧
    jan_feb_used_future_data series_e5 ⟨2019, 3, 1⟩ = false ∧
    calculate_jan_feb_avg_heating_sold series_e5 ⟨2019, 2, 1⟩ = some 50 ∧
    jan_feb_used_future_data series_e5 ⟨2019, 2, 1⟩ = true := by
  refine ⟨?_, ?_, ?_, ?_⟩ <;>
    norm_num [calculate_jan_feb_avg_heating_sold, jan_feb_used_future_data,
      jan_feb_subset_year, jan_feb_subset_all, jan_feb_year_of_interest,
      series_mean, series_e5]

/-- C4 counterexample: with tank volume 1 m3 and max temperature 1, the
maximum tank discharge is `kwh_per_deg` (about 1.159), and an hourly hot-water
demand of 2 makes `solve_model` raise even though 2 does not exceed the
claimed bound (max discharge plus the tank's max hourly input, about 2.319),
under which the claim says no error is raised. -/
theorem hot_water_precheck_counterexample :
    hot_water_precheck 0 [2] 1 1 = Except.error 0 ∧
    kwh_per_deg_of_volume 1 * 1 < 2 ∧
    (2 : ℚ) ≤ kwh_per_deg_of_volume 1 * 1 + kwh_per_deg_of_volume 1 * 1 := by
  have hlt : kwh_per_deg_of_volume 1 * 1 < 2 := by norm_num [kwh_per_deg_of_volume]
  refine ⟨?_, hlt, by norm_num [kwh_per_deg_of_volume]⟩
  simp [hot_water_precheck, hlt]
  norm_num [kwh_per_deg_of_volume]

/-- C4 amended: the pre-solver hot-water check of `AgentEMS.solve_model` raises
exactly when some hourly hot-water demand strictly exceeds
`kwh_per_deg * max tank temperature` (with no max-input term), and the raised
error carries the agent index (a `RuntimeError` naming the agent; no hour
indices); otherwise model construction proceeds without this error. -/
theorem hot_water_precheck_spec (agent : ℕ) (hot_water_heatdem : List ℚ)
    (vol tmax : ℚ) :
    (hot_water_precheck agent hot_water_heatdem vol tmax = Except.error agent ↔
      ∃ d ∈ hot_water_heatdem, kwh_per_deg_of_volume vol * tmax < d) ∧
    (hot_water_precheck agent hot_water_heatdem vol tmax = Except.ok () ↔
      ∀ d ∈ hot_water_heatdem, d ≤ kwh_per_deg_of_volume vol * tmax) := by
  by_cases hb : hot_water_heatdem.any
      (fun d => decide (kwh_per_deg_of_volume vol * tmax < d)) = true
  · have hex : ∃ d ∈ hot_water_heatdem, kwh_per_deg_of_volume vol * tmax < d := by
      simpa using hb
    have hres : hot_water_precheck agent hot_water_heatdem vol tmax = Except.error agent := by
      simp [hot_water_precheck, hb]
    refine ⟨iff_of_true hres hex, ?_⟩
    rw [hres]
    constructor
    · intro h
      simp at h
    · intro hall
      obtain ⟨d, hd, hlt⟩ := hex
      exact absurd (hall d hd) (not_le.mpr hlt)
  · have hb2 : hot_water_heatdem.any
        (fun d => decide (kwh_per_deg_of_volume vol * tmax < d)) = false := by
      simpa using hb
    have hall : ∀ d ∈ hot_water_heatdem, d ≤ kwh_per_deg_of_volume vol * tmax := by
      intro d hd
      have hx := List.any_eq_false.mp hb2 d hd
      simpa using hx
    have hres : hot_water_precheck agent hot_water_heatdem vol tmax = Except.ok () := by
      simp [hot_water_precheck, hb2]
    refine ⟨?_, iff_of_true hres hall⟩
    rw [hres]
    constructor
    · intro h
      simp at h
    · intro ⟨d, hd, hlt⟩
      exact absurd (hall d hd) (not_le.mpr hlt)

lemma very_small_number_pos : (0:ℚ) < VERY_SMALL_NUMBER := by
  norm_num [VERY_SMALL_NUMBER]

/-- C2: for every (agent, hour, resource) in a solved horizon with net = bought
minus sold, if |net| is at most 1e-6 no Trade is emitted; otherwise exactly one
Trade is emitted, a BUY exactly when net > 0 and a SELL otherwise, with
pre-loss quantity |net|/(1-loss) and post-loss quantity |net|. -/
theorem agent_trade_emission (net loss : ℚ) (resource : Resource) (market : Market)
    (hpd : Bool) (n tf xf pf pl inc hq hf hm tb : ℚ)
    (hl0 : 0 ≤ loss) (hl1 : loss < 1) :
    (|net| ≤ VERY_SMALL_NUMBER →
      add_agent_trade net loss resource market hpd n tf xf pf pl inc hq hf hm tb = none) ∧
    (VERY_SMALL_NUMBER < |net| →
      ∃ tr, add_agent_trade net loss resource market hpd n tf xf pf pl inc hq hf hm tb
          = some tr ∧
        tr.action = (if 0 < net then Action.BUY else Action.SELL) ∧
        tr.quantity_pre_loss = |net| / (1 - loss) ∧
        tr.quantity_post_loss = |net|) := by
  have h1l : (0:ℚ) < 1 - loss := by linarith
  constructor
  · intro hle
    have hno : ¬(VERY_SMALL_NUMBER < net ∨ net < -VERY_SMALL_NUMBER) := by
      push_neg
      exact ⟨le_trans (le_abs_self net) hle,
             le_trans (neg_le_neg hle) (neg_abs_le net)⟩
    simp only [add_agent_trade, if_neg hno]
  · intro hgt
    have hcond : VERY_SMALL_NUMBER < net ∨ net < -VERY_SMALL_NUMBER := by
      rcases lt_abs.mp hgt with h | h
      · exact Or.inl h
      · exact Or.inr (by linarith)
    simp only [add_agent_trade, if_pos hcond]
    by_cases h0 : 0 < net
    · refine ⟨_, rfl, ?_, ?_, ?_⟩
      · simp [mkTrade, h0]
      · simp only [mkTrade, if_pos h0]
        rw [abs_div, abs_of_pos h1l, abs_of_pos h0]
      · simp only [mkTrade, if_pos h0]
        rw [abs_div, abs_of_pos h1l, abs_of_pos h0,
          div_mul_cancel₀ _ (ne_of_gt h1l)]
    · refine ⟨_, rfl, ?_, ?_, ?_⟩
      · simp [mkTrade, h0]
      · simp only [mkTrade, if_neg h0]
      · simp only [mkTrade, if_neg h0]

theorem agent_trade_emission_witness :
    (0:ℚ) ≤ 1/2 ∧ (1/2:ℚ) < 1 ∧ VERY_SMALL_NUMBER < |(1:ℚ)| ∧
    (∃ tr, add_agent_trade 1 (1/2) Resource.ELECTRICITY Market.LOCAL true
        0 0 0 0 0 0 0 0 0 1 = some tr ∧
      tr.action = (if (0:ℚ) < 1 then Action.BUY else Action.SELL) ∧
      tr.quantity_pre_loss = |(1:ℚ)| / (1 - 1/2) ∧
      tr.quantity_post_loss = |(1:ℚ)|) :=
  ⟨by norm_num, by norm_num, by norm_num [VERY_SMALL_NUMBER],
   (agent_trade_emission 1 (1/2) Resource.ELECTRICITY Market.LOCAL true
      0 0 0 0 0 0 0 0 0 1 (by norm_num) (by norm_num)).2
     (by norm_num [VERY_SMALL_NUMBER])⟩

/-- C1: with a strictly positive total electricity purchase over the horizon,
the estimated retail price attached to electricity trades is
nordpool + transmission fee + tax + (elec_peak_load_fee * avg_elec_peak_load) /
total_bought, the estimated wholesale price attached to selling trades is
nordpool + incentive_fee (the wholesale offset), and the heating wholesale
price is always NaN (`none`). -/
theorem estimated_price_reconstruction (market : Market)
    (n tf xf pf pl inc tb : ℚ) (htotal : 0 < tb) :
    ((calculate_estimated_electricity_retail_price n tf xf pf pl tb).1 =
      n + tf + xf + pf * pl / tb) ∧
    (calculate_estimated_electricity_wholesale_price n inc = n + inc) ∧
    (calculate_estimated_heating_wholesale_price = none) ∧
    (∀ net, VERY_SMALL_NUMBER < net →
      ∃ tr, add_agent_trade net 0 Resource.ELECTRICITY market true n tf xf pf pl inc 0 0 0 tb
          = some tr ∧
        tr.price = some (n + tf + xf + pf * pl / tb)) ∧
    (∀ net, net < -VERY_SMALL_NUMBER →
      ∃ tr, add_agent_trade net 0 Resource.ELECTRICITY market true n tf xf pf pl inc 0 0 0 tb
          = some tr ∧
        tr.price = some (n + inc)) := by
  refine ⟨rfl, rfl, rfl, ?_, ?_⟩
  · intro net h
    have h0 : 0 < net := lt_trans very_small_number_pos h
    simp only [add_agent_trade, if_pos (Or.inl h)]
    refine ⟨_, rfl, ?_⟩
    simp [mkTrade, h0, calculate_estimated_electricity_retail_price]
  · intro net h
    have h0 : ¬(0 < net) := by
      have := very_small_number_pos
      push_neg
      linarith
    simp only [add_agent_trade, if_pos (Or.inr h)]
    refine ⟨_, rfl, ?_⟩
    simp [mkTrade, h0, calculate_estimated_electricity_wholesale_price]

theorem estimated_price_reconstruction_witness :
    (0:ℚ) < 20 ∧
    (calculate_estimated_electricity_retail_price 3 5 7 1 10 20).1 =
      3 + 5 + 7 + 1 * 10 / 20 ∧
    calculate_estimated_heating_wholesale_price = none :=
  ⟨by norm_num,
   (estimated_price_reconstruction Market.EXTERNAL 3 5 7 1 10 0 20 (by norm_num)).1,
   (estimated_price_reconstruction Market.EXTERNAL 3 5 7 1 10 0 20 (by norm_num)).2.2.1⟩

lemma add_agent_trade_buy_elec (net n tf xf pf pl inc tb : ℚ) (mk : Market)
    (h : VERY_SMALL_NUMBER < net) :
    add_agent_trade net 0 Resource.ELECTRICITY mk true n tf xf pf pl inc 0 0 0 tb =
      some { action := Action.BUY, resource := Resource.ELECTRICITY,
             quantity_pre_loss := net, quantity_post_loss := net,
             price := some (n + tf + xf + pf * pl / tb),
             by_external := false, market := mk, loss := 0,
             grid_fee_paid := pf * pl / tb + tf } := by
  have h0 : 0 < net := lt_trans very_small_number_pos h
  simp only [add_agent_trade, if_pos (Or.inl h)]
  simp [mkTrade, h0, calculate_estimated_electricity_retail_price]
  exact le_of_lt h0

/-- C3 counterexample: a two-hour horizon importing 10 kWh each hour, with
effect fee 1 and peak-load value 10 (so the horizon effect fee is 10) and zero
transmission fee.  Each BUY trade records a per-kWh grid fee of
(1 * 10) / 20 = 0.5, so the sum over the horizon of `Trade.grid_fee_paid` on
buys is 1, which differs from the effect fee 10 by far more than 1e-6. -/
theorem grid_fee_sum_counterexample :
    ¬ |sum_grid_fee_paid_on_buys
        (elec_agent_trades_no_lec 2 (fun _ => 10) (fun _ => 0) (fun _ => 0) 0 0 1 10 0)
        - 1 * 10| ≤ VERY_SMALL_NUMBER := by
  have h1 : add_agent_trade ((10:ℚ) - 0) 0 Resource.ELECTRICITY Market.EXTERNAL true
      0 0 0 1 10 0 0 0 0 (get_sum_of_param 2 (fun _ => (10:ℚ))) =
      some { action := Action.BUY, resource := Resource.ELECTRICITY,
             quantity_pre_loss := 10 - 0, quantity_post_loss := 10 - 0,
             price := some (0 + 0 + 0 + 1 * 10 / get_sum_of_param 2 (fun _ => (10:ℚ))),
             by_external := false, market := Market.EXTERNAL, loss := 0,
             grid_fee_paid := 1 * 10 / get_sum_of_param 2 (fun _ => (10:ℚ)) + 0 } :=
    add_agent_trade_buy_elec _ _ _ _ _ _ _ _ _ (by norm_num [VERY_SMALL_NUMBER])
  have htot : get_sum_of_param 2 (fun _ => (10:ℚ)) = 20 := by
    norm_num [get_sum_of_param, List.range_succ]
  rw [htot] at h1
  simp only [elec_agent_trades_no_lec, htot, List.range_succ, List.range_zero,
    List.nil_append, List.cons_append, List.filterMap_cons, List.filterMap_nil, h1]
  norm_num [sum_grid_fee_paid_on_buys, VERY_SMALL_NUMBER]

/-- C3 amended: every electricity BUY agent trade records as `grid_fee_paid`
the per-kWh effect-fee share plus the transmission fee; consequently, over a
horizon in which every hour imports strictly more than the 1e-6 emission
threshold and nothing is exported, the effect-fee component of
`grid_fee_paid` (grid fee minus transmission fee) weighted by each trade's
bought energy sums to exactly the horizon effect fee
`elec_peak_load_fee * avg_elec_peak_load`. -/
theorem grid_fee_reconstruction (H : ℕ) (Pbuy Psell nordpool : ℕ → ℚ)
    (tf xf pf pl inc : ℚ) (hH : 0 < H)
    (hs : ∀ t, t < H → Psell t = 0 ∧ VERY_SMALL_NUMBER < Pbuy t) :
    sum_effect_fee_recovered_on_buys
        (elec_agent_trades_no_lec H Pbuy Psell nordpool tf xf pf pl inc) tf
      = pf * pl := by
  have key : ∀ ts : List ℕ, (∀ t ∈ ts, Psell t = 0 ∧ VERY_SMALL_NUMBER < Pbuy t) →
      (((ts.filterMap (fun t =>
          add_agent_trade (Pbuy t - Psell t) 0 Resource.ELECTRICITY Market.EXTERNAL true
            (nordpool t) tf xf pf pl inc 0 0 0 (get_sum_of_param H Pbuy))).filter
          (fun tr => decide (tr.action = Action.BUY))).map
          (fun tr => (tr.grid_fee_paid - tf) * tr.quantity_post_loss)).sum
        = pf * pl / get_sum_of_param H Pbuy * (ts.map Pbuy).sum := by
    intro ts
    induction ts with
    | nil => simp
    | cons a l ih =>
      intro hmem
      have ha := hmem a (List.mem_cons_self a l)
      have hrest := fun t ht => hmem t (List.mem_cons_of_mem a ht)
      have hbuy := add_agent_trade_buy_elec (Pbuy a - Psell a) (nordpool a) tf xf pf pl inc
        (get_sum_of_param H Pbuy) Market.EXTERNAL (by rw [ha.1]; simpa using ha.2)
      rw [List.filterMap_cons, hbuy]
      simp only [List.filter_cons, decide_eq_true_eq]
      rw [if_pos (by simp)]
      rw [List.map_cons, List.sum_cons, ih hrest, List.map_cons, List.sum_cons]
      rw [ha.1]
      ring
  have htrades : elec_agent_trades_no_lec H Pbuy Psell nordpool tf xf pf pl inc =
      (List.range H).filterMap (fun t =>
        add_agent_trade (Pbuy t - Psell t) 0 Resource.ELECTRICITY Market.EXTERNAL true
          (nordpool t) tf xf pf pl inc 0 0 0 (get_sum_of_param H Pbuy)) := rfl
  have hmem : ∀ t ∈ List.range H, Psell t = 0 ∧ VERY_SMALL_NUMBER < Pbuy t := by
    intro t ht
    exact hs t (List.mem_range.mp ht)
  have hsum : ((List.range H).map Pbuy).sum = get_sum_of_param H Pbuy := rfl
  have htotpos : 0 < get_sum_of_param H Pbuy := by
    rw [← hsum]
    apply List.sum_pos
    · intro q hq
      obtain ⟨t, ht, rfl⟩ := List.mem_map.mp hq
      exact lt_trans very_small_number_pos (hmem t ht).2
    · simp only [ne_eq, List.map_eq_nil_iff, List.range_eq_nil]
      omega
  rw [sum_effect_fee_recovered_on_buys, htrades, key (List.range H) hmem, hsum,
    div_mul_cancel₀ _ (ne_of_gt htotpos)]

lemma month_day_filter (series : SellSeries) (year : ℤ) (month d : ℕ) :
    (month_entries series year month).filter (fun e => decide (e.1.day = d)) =
      series.filter (fun e => decide (e.1.year = year ∧ e.1.month = month ∧ e.1.day = d)) := by
  rw [month_entries, List.filter_filter]
  apply List.filter_congr
  intro e _
  simp only [Bool.decide_and]
  rw [Bool.and_comm]
  rw [Bool.and_assoc]

/-- C8: for every external-sell series with nonnegative quantities, valid day
fields and at least one row in the queried month,
`calculate_peak_day_avg_cons_kw` returns the maximum over calendar days of that
month of the day's total sold energy, divided by 24 (it bounds every day's
total over 24 and attains it on some day), and the exact monthly effect fee is
the effect-fee rate times this value. -/
theorem peak_day_avg_characterisation (series : SellSeries) (year : ℤ) (month : ℕ)
    (hnn : ∀ e ∈ series, 0 ≤ e.2)
    (hdays : ∀ e ∈ series, 1 ≤ e.1.day ∧ e.1.day ≤ 31)
    (hne : ∃ e ∈ series, e.1.year = year ∧ e.1.month = month) :
    ∃ r, calculate_peak_day_avg_cons_kw series year month = some r ∧
      (∀ d, 1 ≤ d → d ≤ 31 → daily_sum series year month d / 24 ≤ r) ∧
      (∃ d, 1 ≤ d ∧ d ≤ 31 ∧ r = daily_sum series year month d / 24) ∧
      (∀ hp : HeatingPrice, exact_effect_fee hp r = hp.effect_fee * r) := by
  classical
  obtain ⟨e0, he0, hy0, hm0⟩ := hne
  have he0m : e0 ∈ month_entries series year month := by
    rw [month_entries, List.mem_filter]
    exact ⟨he0, by simp [hy0, hm0]⟩
  have hmem_series : ∀ e ∈ month_entries series year month, e ∈ series := by
    intro e he
    exact (List.mem_filter.mp he).1
  have hentne : month_entries series year month ≠ [] := by
    intro h
    rw [h] at he0m
    exact absurd he0m (List.not_mem_nil e0)
  set entries := month_entries series year month with hentries
  set days := (entries.map (fun e => e.1.day)).dedup with hdays_def
  set sold_by_day := days.map
    (fun d => ((entries.filter (fun e => decide (e.1.day = d))).map Prod.snd).sum) with hsbd
  have hcalc : calculate_peak_day_avg_cons_kw series year month =
      sold_by_day.max?.map (fun m => m / 24) := rfl
  have hdaysne : days ≠ [] := by
    rw [hdays_def, ne_eq, List.dedup_eq_nil, List.map_eq_nil_iff]
    exact hentne
  have hsbdne : sold_by_day ≠ [] := by
    rw [hsbd, ne_eq, List.map_eq_nil_iff]
    exact hdaysne
  cases hmx : sold_by_day.max? with
  | none =>
      rw [List.max?_eq_none_iff] at hmx
      exact absurd hmx hsbdne
  | some m =>
  have hmmem : m ∈ sold_by_day := List.max?_mem (fun a b => max_choice a b) hmx
  have hub : ∀ b ∈ sold_by_day, b ≤ m :=
    (List.max?_le_iff (fun a b c => max_le_iff) hmx).mp (le_refl m)
  have hnn2 : ∀ b ∈ sold_by_day, 0 ≤ b := by
    intro b hb
    rw [hsbd] at hb
    obtain ⟨d, _, rfl⟩ := List.mem_map.mp hb
    apply List.sum_nonneg
    intro q hq
    obtain ⟨e, he, rfl⟩ := List.mem_map.mp hq
    exact hnn e (hmem_series e (List.mem_filter.mp he).1)
  have helem : ∀ d ∈ days,
      ((entries.filter (fun e => decide (e.1.day = d))).map Prod.snd).sum =
        daily_sum series year month d := by
    intro d _
    rw [daily_sum, ← month_day_filter series year month d, hentries]
  refine ⟨m / 24, by rw [hcalc, hmx]; rfl, ?_, ?_, fun hp => rfl⟩
  · intro d h1 h31
    by_cases hd : d ∈ days
    · have : daily_sum series year month d ∈ sold_by_day := by
        rw [hsbd]
        rw [← helem d hd]
        exact List.mem_map_of_mem _ hd
      exact (div_le_div_iff_of_pos_right (by norm_num)).mpr (hub _ this)
    · have hzero : daily_sum series year month d = 0 := by
        rw [daily_sum]
        have hnil : series.filter
            (fun e => decide (e.1.year = year ∧ e.1.month = month ∧ e.1.day = d)) = [] := by
          rw [List.filter_eq_nil_iff]
          intro e he hp
          simp only [decide_eq_true_eq] at hp
          apply hd
          rw [hdays_def, List.mem_dedup]
          have hem : e ∈ entries := by
            rw [hentries, month_entries, List.mem_filter]
            exact ⟨he, by simp [hp.1, hp.2.1]⟩
          rw [← hp.2.2]
          exact List.mem_map_of_mem _ hem
        rw [hnil]
        simp
      rw [hzero, zero_div]
      have h0m : (0:ℚ) ≤ m := hnn2 m hmmem
      exact div_nonneg h0m (by norm_num)
  · rw [hsbd] at hmmem
    obtain ⟨d, hd, hdm⟩ := List.mem_map.mp hmmem
    obtain ⟨e, he, hde⟩ := List.mem_map.mp (List.mem_dedup.mp (hdays_def ▸ hd))
    have hbound := hdays e (hmem_series e he)
    refine ⟨d, ?_, ?_, ?_⟩
    · rw [← hde]; exact hbound.1
    · rw [← hde]; exact hbound.2
    · rw [← hdm, helem d hd]

theorem peak_day_avg_characterisation_witness :
    calculate_peak_day_avg_cons_kw series_e6 2019 3 = some 10 ∧
    (∃ r, calculate_peak_day_avg_cons_kw series_e6 2019 3 = some r ∧
      (∀ d, 1 ≤ d → d ≤ 31 → daily_sum series_e6 2019 3 d / 24 ≤ r) ∧
      (∃ d, 1 ≤ d ∧ d ≤ 31 ∧ r = daily_sum series_e6 2019 3 d / 24) ∧
      (∀ hp : HeatingPrice, exact_effect_fee hp r = hp.effect_fee * r)) :=
  ⟨by norm_num [calculate_peak_day_avg_cons_kw, month_entries, series_e6],
   peak_day_avg_characterisation series_e6 2019 3
     (by norm_num [series_e6])
     (by norm_num [series_e6])
     ⟨⟨⟨2019, 3, 1⟩, 100⟩, by norm_num [series_e6]⟩⟩

theorem grid_fee_reconstruction_witness :
    (0:ℕ) < 1 ∧
    sum_effect_fee_recovered_on_buys
        (elec_agent_trades_no_lec 1 (fun _ => 1) (fun _ => 0) (fun _ => 0) 5 0 2 3 0) 5
      = 2 * 3 :=
  ⟨by norm_num,
   grid_fee_reconstruction 1 (fun _ => 1) (fun _ => 0) (fun _ => 0) 5 0 2 3 0 (by norm_num)
     (fun t ht => ⟨rfl, by norm_num [VERY_SMALL_NUMBER]⟩)⟩

/-- C9: `get_exact_retail_price` returns NaN (`none`, the missing-data
sentinel) for every period whose calendar month has zero accumulated external
heating sells; when the month's accumulated consumption is nonzero (and the
Jan-Feb average and peak-day values its tariff needs are defined) it returns
the total monthly cost - base marginal price times consumption, plus grid fee,
plus effect fee - divided by that consumption. -/
theorem exact_retail_price_spec (hp : HeatingPrice) (series : SellSeries) (period : PyDate) :
    (calculate_consumption_this_month series period.year period.month = 0 →
      get_exact_retail_price hp series period = none) ∧
    (∀ jf pk, calculate_consumption_this_month series period.year period.month ≠ 0 →
      calculate_jan_feb_avg_heating_sold series period = some jf →
      calculate_peak_day_avg_cons_kw series period.year period.month = some pk →
      get_exact_retail_price hp series period =
        some ((get_base_marginal_price period.month
              * calculate_consumption_this_month series period.year period.month
            + get_grid_fee_for_month jf period.year period.month
            + exact_effect_fee hp pk)
          / calculate_consumption_this_month series period.year period.month)) := by
  constructor
  · intro h0
    simp only [get_exact_retail_price, h0, if_pos]
  · intro jf pk hne hjf hpk
    have hval : exact_district_heating_price_for_month hp period.month period.year
        (calculate_consumption_this_month series period.year period.month) jf pk =
        get_base_marginal_price period.month
            * calculate_consumption_this_month series period.year period.month
          + get_grid_fee_for_month jf period.year period.month
          + exact_effect_fee hp pk := by
      rw [exact_district_heating_price_for_month]
      ring
    simp only [get_exact_retail_price, if_neg hne, hjf, hpk, hval]

theorem exact_retail_price_spec_witness :
    calculate_consumption_this_month ([] : SellSeries) 2019 3 = 0 ∧
    get_exact_retail_price hp_default [] ⟨2019, 3, 1⟩ = none ∧
    calculate_consumption_this_month series_with_history 2019 3 ≠ 0 ∧
    get_exact_retail_price hp_default series_with_history ⟨2019, 3, 1⟩ =
      some ((get_base_marginal_price 3
            * calculate_consumption_this_month series_with_history 2019 3
          + get_grid_fee_for_month 50 2019 3
          + exact_effect_fee hp_default 10)
        / calculate_consumption_this_month series_with_history 2019 3) :=
  ⟨by norm_num [calculate_consumption_this_month],
   (exact_retail_price_spec hp_default [] ⟨2019, 3, 1⟩).1
     (by norm_num [calculate_consumption_this_month]),
   by norm_num [calculate_consumption_this_month, series_with_history, series_e5, series_e6],
   (exact_retail_price_spec hp_default series_with_history ⟨2019, 3, 1⟩).2 50 10
     (by norm_num [calculate_consumption_this_month, series_with_history, series_e5, series_e6])
     (by norm_num [calculate_jan_feb_avg_heating_sold, jan_feb_subset_year, jan_feb_subset_all,
        jan_feb_year_of_interest, series_mean, series_with_history, series_e5, series_e6])
     (by norm_num [calculate_peak_day_avg_cons_kw, month_entries, series_with_history,
        series_e5, series_e6])⟩

end TradingPlatform
